import Mathlib

/-
Verification of the transcribe-song generative-model residency manager and
vector-search components against their specification.

The FAISS vector-search embedding below is translated from
src/managers/faiss_manager.py.  The multi-model residency manager
(src/models/multi_model_manager.py) is referenced throughout the repository
(its API endpoints, configuration interface, scripts and tests all import it)
but the module itself is not part of the source tree; its behaviour is
modelled from the specification, as noted on each definition.
-/

namespace TranscribeSong

/-- Python str whitespace predicate used by str.strip: space, tab, newline,
carriage return, vertical tab, form feed. -/
def isPyWhitespace (c : Char) : Bool :=
  c == ' ' || c == '\t' || c == '\n' || c == '\r' || c == Char.ofNat 11 || c == Char.ofNat 12

/-- Python str.strip with no arguments: remove leading and trailing whitespace. -/
def pyStrip (s : String) : String :=
  String.mk (((s.toList.dropWhile isPyWhitespace).reverse.dropWhile isPyWhitespace).reverse)

namespace FAISSManager

/-- One value of the id_to_metadata dictionary of FAISSManager
(src/managers/faiss_manager.py, add_transcription lines 119-125).
Caller metadata dictionaries are modelled as string-to-string
association lists. -/
structure MetaEntry where
  file_id : String
  transcription_id : String
  text : String
  metadata : List (String × String)
  indexed_at : String
deriving DecidableEq

/-- One element of the result list of FAISSManager.search
(src/managers/faiss_manager.py lines 178-185). Scores (numpy floats in the
source) are modelled as integers; only their presence matters here. -/
structure SearchResult where
  score : Int
  file_id : String
  transcription_id : String
  text_preview : String
  metadata : List (String × String)
  indexed_at : String
deriving DecidableEq

/-- The mutable state of a FAISSManager: the id_to_metadata dictionary and the
next_id counter (src/managers/faiss_manager.py lines 36-38).  The raw faiss
index itself is external; its search output is passed as an explicit
candidate list to search below. -/
structure FAISSState where
  id_to_metadata : List (Int × MetaEntry)
  next_id : Int
deriving DecidableEq

/-- Python dict lookup self.id_to_metadata.get(idx)
(src/managers/faiss_manager.py line 164). -/
def lookupMeta (st : FAISSState) (idx : Int) : Option MetaEntry :=
  (st.id_to_metadata.find? (fun p => p.1 == idx)).map Prod.snd

/-- Python dict .get on a string-keyed metadata dictionary. -/
def assocGet (l : List (String × String)) (k : String) : Option String :=
  (l.find? (fun p => p.1 == k)).map Prod.snd

/-- The filter check of FAISSManager.search (lines 169-176): every
filter key must be present in the entry metadata with an equal value. -/
def matchesFilter (filt : List (String × String)) (m : MetaEntry) : Bool :=
  filt.all (fun kv => assocGet m.metadata kv.1 == some kv.2)

/-- Python truthiness of the optional filter_metadata argument followed by the
per-key check (lines 169-176); None (and the empty dictionary) filters
nothing. -/
def passesFilter (filt : Option (List (String × String))) (m : MetaEntry) : Bool :=
  match filt with
  | none => true
  | some f => matchesFilter f m

/-- The result record appended by FAISSManager.search (lines 178-185). -/
def mkResult (score : Int) (m : MetaEntry) : SearchResult :=
  { score := score
    file_id := m.file_id
    transcription_id := m.transcription_id
    text_preview := m.text
    metadata := m.metadata
    indexed_at := m.indexed_at }

/-- The result-processing loop of FAISSManager.search
(src/managers/faiss_manager.py lines 159-189): skip negative indices, skip
indices without metadata, apply the optional filter, append the result, and
break once k results have been collected.  The (score, idx) candidate pairs
are the rows returned by the raw faiss index search. -/
def processResults (st : FAISSState) (filt : Option (List (String × String))) (k : Nat) :
    List (Int × Int) → List SearchResult → List SearchResult
  | [], acc => acc
  | (score, idx) :: rest, acc =>
    if idx < 0 then processResults st filt k rest acc
    else
      match lookupMeta st idx with
      | none => processResults st filt k rest acc
      | some m =>
        if passesFilter filt m then
          if k ≤ (acc ++ [mkResult score m]).length then acc ++ [mkResult score m]
          else processResults st filt k rest (acc ++ [mkResult score m])
        else processResults st filt k rest acc

/-- FAISSManager.search (src/managers/faiss_manager.py lines 136-190).
A query that strips to the empty string returns the empty list before any
index access; otherwise the candidate rows raw — the output of the external
faiss call self.index.search(embedding, k * 2), which returns at most 2 * k
rows — are folded through the result-processing loop. -/
def search (st : FAISSState) (query : String) (k : Nat)
    (filt : Option (List (String × String))) (raw : List (Int × Int)) : List SearchResult :=
  if (pyStrip query).isEmpty then [] else processResults st filt k raw []

/-- FAISSManager.add_transcription (src/managers/faiss_manager.py lines
98-134): store the metadata entry under next_id (text truncated to a
500-character preview), return the assigned id and advance the counter. -/
def add_transcription (st : FAISSState) (file_id transcription_id : String)
    (text : String) (metadata : List (String × String)) (now : String) :
    Int × FAISSState :=
  let entry : MetaEntry :=
    { file_id := file_id
      transcription_id := transcription_id
      text := text.take 500
      metadata := metadata
      indexed_at := now }
  (st.next_id,
   { id_to_metadata := st.id_to_metadata ++ [(st.next_id, entry)]
     next_id := st.next_id + 1 })

/-- Index-state fixture: one transcription added to a fresh index. -/
def stFixture : FAISSState :=
  (add_transcription { id_to_metadata := [], next_id := 0 } "file-1" "trans-1"
    "dont you worry child" [("genre", "pop")] "2025-01-01").2

/-- Candidate-row fixture standing for a raw faiss answer for k = 2: the
stored vector plus a padding row with index -1. -/
def rawFixture : List (Int × Int) := [(9, 0), (3, -1)]

end FAISSManager

/-- Modelled from the spec: the family tag of a ModelDescriptor
(spec §3: family ∈ \x7bcausal_lm, multimodal, edge_runtime\x7d).  The source
module src/models/multi_model_manager.py that declares the catalog is not in
the tree; only its callers are. -/
inductive Family where
  | causal_lm
  | multimodal
  | edge_runtime
deriving DecidableEq

/-- String form of the family tag, as shown in the type field of status
entries consumed by the callers. -/
def familyStr : Family → String
  | .causal_lm => "causal_lm"
  | .multimodal => "multimodal"
  | .edge_runtime => "edge_runtime"

/-- Modelled from the spec: ModelDescriptor (spec §3) — key, family tag,
remote identifier, local cache path, estimated memory, and the ordered list
of execution-backend hints.  The declaring module
src/models/multi_model_manager.py is absent from the tree. -/
structure ModelDescriptor where
  key : String
  family : Family
  remote_id : String
  local_path : String
  estimated_memory_mb : Nat
  backend_hints : List String
deriving DecidableEq

/-- The immutable model catalog (spec §4.1): one descriptor per key. -/
abbrev Catalog := List ModelDescriptor

/-- Catalog lookup key → descriptor (spec §4.1). -/
def findDescriptor (cat : Catalog) (key : String) : Option ModelDescriptor :=
  List.find? (fun d => d.key == key) cat

/-- Catalog key list of a catalog. -/
def catalogKeys (cat : Catalog) : List String :=
  List.map ModelDescriptor.key cat

/-- Modelled from the spec: the typed outcome of one backend instantiation
attempt (spec §9: success, incompatible, out_of_memory or other_failure). -/
inductive AttemptOutcome where
  | success (memory_mb : Nat)
  | incompatible
  | out_of_memory
  | other_failure
deriving DecidableEq

/-- Modelled from the spec: the outcome of one model-generation call against
a resident handle (spec §4.4) - either generated text, or a runtime fault
which may or may not look like corrupted device state. -/
inductive GenOutcome where
  | ok (text : String)
  | fault (corrupting : Bool) (msg : String)
deriving DecidableEq

/-- The external world the manager acts against: the accelerator device name,
the artifact fetcher (bounded-retry download, spec §4.2), the per-backend
model instantiation attempt (spec §4.3), and the model-generation call
(spec §4.4).  These stand for the network, filesystem and accelerator. -/
structure Env where
  device : String
  fetch : String → Bool
  attempt : String → String → AttemptOutcome
  gen : String → String → Nat → GenOutcome

/-- Modelled from the spec: the LoadedModel held by the ResidencySlot
(spec §3): the key, the backend that ultimately worked, and the measured
memory.  The handle objects themselves are external. -/
structure LoadedModel where
  key : String
  backend_used : String
  actual_memory_mb : Nat
deriving DecidableEq

/-- Modelled from the spec: the mutable state of the MultiModelManager — the
ResidencySlot holding at most one LoadedModel (spec §3) and the set of keys
whose DownloadRecord is present (spec §3, §4.2). -/
structure ManagerState where
  slot : Option LoadedModel
  downloaded : List String
deriving DecidableEq

/-- The manager's current_model attribute, read by the API endpoints and the
configuration interface: the key of the resident model, if any
(spec §4.3 get_current_key). -/
def current_model (st : ManagerState) : Option String :=
  Option.map LoadedModel.key st.slot

/-- Modelled from the spec: ensure_downloaded (spec §4.2).  If the record is
present the call returns true immediately with no transfer; otherwise the
artifact is fetched (the Env.fetch oracle stands for the bounded-retry
transfer plus verification) and the record is flipped to present only on
success.  The third component counts transfers performed by the call. -/
def ensure_downloaded (env : Env) (st : ManagerState) (key : String) :
    Bool × ManagerState × Nat :=
  if key ∈ st.downloaded then (true, st, 0)
  else if env.fetch key then (true, { st with downloaded := key :: st.downloaded }, 1)
  else (false, st, 1)

/-- Modelled from the spec: the typed errors this subsystem propagates
(spec §7): InvalidStateError for caller misuse (unknown catalog key, or an
operation requiring a resident model with none loaded) and GenerationError
for a runtime fault during model execution. -/
inductive ModelError where
  | invalidState (msg : String)
  | generationError (msg : String)
deriving DecidableEq

/-- Modelled from the spec: the result of walking the descriptor's
backend-hint list (spec §4.3, §9): the backend that worked plus the measured
memory, or failure (hints exhausted, out-of-memory, or a generic crash,
none of which are retried). -/
inductive BackendTrial where
  | ok (backend : String) (memory_mb : Nat)
  | failed
deriving DecidableEq

/-- Modelled from the spec: try the backend hints in list order; an
incompatibility signal moves on to the next, more portable hint, while
out-of-memory and generic crashes abort the walk (spec §4.3, §9). -/
def try_backends (env : Env) (key : String) : List String → BackendTrial
  | [] => .failed
  | b :: rest =>
    match env.attempt key b with
    | .success m => .ok b m
    | .incompatible => try_backends env key rest
    | .out_of_memory => .failed
    | .other_failure => .failed

/-- Modelled from the spec: unload_current_model (spec §4.3 unload): a no-op
returning true on an empty slot, otherwise the handle is released and the
slot cleared, returning true even on a release fault (fail-safe toward an
empty slot). -/
def unload_current_model (st : ManagerState) : Bool × ManagerState :=
  (true, { st with slot := none })

/-- Modelled from the spec: load_model (spec §4.3 load).  An unknown catalog
key is InvalidStateError with no side effect (spec §4.1, §7).  Otherwise the
slot is cleared first (per the integration test test_models_integration.py
test_all_models, a load with an occupied slot replaces the resident model),
ensure_downloaded is invoked internally (spec §9 design note), and the
backend hints are tried in order; success populates the slot and returns
true, any failure leaves the slot empty and returns false.  The last
component counts download transfers performed. -/
def load_model (cat : Catalog) (env : Env) (st : ManagerState) (key : String) :
    Except ModelError Bool × ManagerState × Nat :=
  match findDescriptor cat key with
  | none => (.error (.invalidState "key not found"), st, 0)
  | some d =>
    match ensure_downloaded env { st with slot := none } key with
    | (false, st1, t) => (.ok false, st1, t)
    | (true, st1, t) =>
      match try_backends env key d.backend_hints with
      | .ok b m =>
        (.ok true,
         { st1 with slot := some { key := key, backend_used := b, actual_memory_mb := m } }, t)
      | .failed => (.ok false, st1, t)

/-- Modelled from the spec: switch_model (spec §4.3 switch): for a known
catalog key, the composite of unload_current_model followed by load_model,
never a direct swap; a load failure after the unload leaves the slot empty.
An unknown key is InvalidStateError with no side effect (spec §4.1, §7
require key validation to have no side effect, so it precedes the unload). -/
def switch_model (cat : Catalog) (env : Env) (st : ManagerState) (key : String) :
    Except ModelError Bool × ManagerState × Nat :=
  match findDescriptor cat key with
  | none => (.error (.invalidState "key not found"), st, 0)
  | some _ => load_model cat env (unload_current_model st).2 key

/-- Modelled from the spec: generate_text, the Generation Dispatcher
(spec §4.4).  With no resident model it fails with InvalidStateError and no
side effect; otherwise the model-generation call runs against the resident
handle.  A runtime fault is wrapped as GenerationError, and a fault that
suggests corrupted device state additionally triggers a defensive unload.
The last component counts model-generation invocations performed. -/
def generate_text (env : Env) (st : ManagerState) (prompt : String) (max_length : Nat) :
    Except ModelError String × ManagerState × Nat :=
  match st.slot with
  | none => (.error (.invalidState "No model loaded"), st, 0)
  | some lm =>
    match env.gen lm.key prompt max_length with
    | .ok text => (.ok text, st, 1)
    | .fault corrupting msg =>
      if corrupting then (.error (.generationError msg), { st with slot := none }, 1)
      else (.error (.generationError msg), st, 1)

/-- One per-key entry of the status report (spec §4.5; field names follow the
callers in src/config/model_config_interface.py show_status). -/
structure StatusEntry where
  key : String
  model_id : String
  mtype : String
  local_path : String
  downloaded : Bool
  loaded : Bool
  backend_used : Option String
  gpu_memory_mb : Option Nat
deriving DecidableEq

/-- The full status report (spec §4.5; shape per the callers: device,
current_model, and one entry per catalog key). -/
structure StatusReport where
  device : String
  current_model : Option String
  models : List StatusEntry
deriving DecidableEq

/-- The per-key status entry derived from the manager state: the download
record flag, whether this key is the resident one, and the backend and
memory when resident (spec §4.5). -/
def statusEntry (st : ManagerState) (d : ModelDescriptor) : StatusEntry :=
  { key := d.key
    model_id := d.remote_id
    mtype := familyStr d.family
    local_path := d.local_path
    downloaded := decide (d.key ∈ st.downloaded)
    loaded := decide (current_model st = some d.key)
    backend_used :=
      match st.slot with
      | some lm => if lm.key = d.key then some lm.backend_used else none
      | none => none
    gpu_memory_mb :=
      match st.slot with
      | some lm => if lm.key = d.key then some lm.actual_memory_mb else none
      | none => none }

/-- Modelled from the spec: get_status, the Status Reporter (spec §4.5): a
pure read returning the device, the current key, and one entry per catalog
key; the second component is the state after the call, which the spec
requires to be unchanged (the reporter reads the slot and catalog but never
mutates them, spec §2, §4.5). -/
def get_status (cat : Catalog) (env : Env) (st : ManagerState) :
    StatusReport × ManagerState :=
  ({ device := env.device
     current_model := current_model st
     models := List.map (statusEntry st) cat }, st)

/-- Number of catalog keys the status report shows with loaded = true. -/
def loadedCount (cat : Catalog) (env : Env) (st : ManagerState) : Nat :=
  (List.filter (fun e => e.loaded) (get_status cat env st).1.models).length

/-- A device-affecting manager operation, for stating sequence-level
invariants (spec §8). -/
inductive Op where
  | load (key : String)
  | unload
  | switch (key : String)
deriving DecidableEq

/-- Run one operation, keeping the resulting state (results and errors are
discarded; errors leave the state unchanged by construction). -/
def runOp (cat : Catalog) (env : Env) (st : ManagerState) : Op → ManagerState
  | .load key => (load_model cat env st key).2.1
  | .unload => (unload_current_model st).2
  | .switch key => (switch_model cat env st key).2.1

/-- Run a sequence of operations from a starting state. -/
def runOps (cat : Catalog) (env : Env) (ops : List Op) (st : ManagerState) : ManagerState :=
  List.foldl (runOp cat env) st ops

/-- The HTTP-level error of the FastAPI endpoints
(src/api/music_analyzer_api.py): status code and detail string. -/
inductive HttpError where
  | httpException (status : Nat) (detail : String)
deriving DecidableEq

/-- The hard-coded list of model keys the load endpoint accepts
(src/api/music_analyzer_api.py line 964). -/
def api_valid_models : List String :=
  ["gemma-3-12b", "phi-4-multimodal", "phi-4-reasoning"]

/-- The POST /api/v2/models/load endpoint (src/api/music_analyzer_api.py
lines 955-975): reject a key outside the valid list with a 400 error before
touching the manager; otherwise run load_model, mapping a false result or a
manager exception to a 500 error. -/
def load_model_endpoint (cat : Catalog) (env : Env) (st : ManagerState)
    (model_type : String) : Except HttpError String × ManagerState :=
  if model_type ∉ api_valid_models then
    (.error (.httpException 400 "Invalid model type"), st)
  else
    match load_model cat env st model_type with
    | (.ok true, st1, _) => (.ok "success", st1)
    | (.ok false, st1, _) => (.error (.httpException 500 "Failed to load"), st1)
    | (.error _, st1, _) => (.error (.httpException 500 "exception"), st1)

/-- Python truthiness of the manager's current_model attribute as tested by
the generate endpoint (None and the empty string are falsy). -/
def pyTruthy : Option String → Bool
  | none => false
  | some s => !s.isEmpty

/-- The detail string carried by a manager error when re-raised over HTTP. -/
def errDetail : ModelError → String
  | .invalidState m => m
  | .generationError m => m

/-- The success body of the generate endpoint
(src/api/music_analyzer_api.py lines 1003-1008). -/
structure GenerateResponse where
  model : Option String
  prompt : String
  response : String
  max_length : Nat
deriving DecidableEq

/-- The POST /api/v2/models/generate endpoint (src/api/music_analyzer_api.py
lines 988-1010): if current_model is falsy, answer 400 "No model loaded"
without invoking the manager; otherwise run generate_text, wrapping a
manager exception in a 500 error.  The last component counts underlying
model-generation invocations. -/
def generate_with_model (env : Env) (st : ManagerState) (prompt : String)
    (max_length : Nat) : Except HttpError GenerateResponse × ManagerState × Nat :=
  if !pyTruthy (current_model st) then
    (.error (.httpException 400 "No model loaded"), st, 0)
  else
    match generate_text env st prompt max_length with
    | (.ok r, st1, n) =>
      (.ok { model := current_model st1, prompt := prompt, response := r,
             max_length := max_length }, st1, n)
    | (.error e, st1, n) => (.error (.httpException 500 (errDetail e)), st1, n)

/-- Descriptor of the gemma-3-12b catalog entry used as a concrete fixture. -/
def dGemma : ModelDescriptor :=
  { key := "gemma-3-12b", family := .causal_lm, remote_id := "google/gemma-3-12b-it",
    local_path := "models/gemma-3-12b", estimated_memory_mb := 24000,
    backend_hints := ["optimized", "portable"] }

/-- Descriptor of the phi-4-multimodal catalog entry used as a fixture. -/
def dPhiMM : ModelDescriptor :=
  { key := "phi-4-multimodal", family := .multimodal,
    remote_id := "microsoft/Phi-4-multimodal-instruct",
    local_path := "models/phi-4-multimodal", estimated_memory_mb := 12000,
    backend_hints := ["optimized", "portable"] }

/-- Descriptor of the phi-4-reasoning catalog entry used as a fixture. -/
def dPhiR : ModelDescriptor :=
  { key := "phi-4-reasoning", family := .causal_lm,
    remote_id := "microsoft/Phi-4-reasoning-plus",
    local_path := "models/phi-4-reasoning", estimated_memory_mb := 12000,
    backend_hints := ["optimized", "portable"] }

/-- The three-model catalog of the repository, as a concrete fixture. -/
def catW : Catalog := [dGemma, dPhiMM, dPhiR]

/-- A benign environment fixture: downloads succeed, the first backend works,
generation succeeds. -/
def envW : Env :=
  { device := "cuda"
    fetch := fun _ => true
    attempt := fun _ _ => .success 1024
    gen := fun _ _ _ => .ok "generated" }

/-- The empty starting state: empty slot, nothing downloaded. -/
def stEmpty : ManagerState := { slot := none, downloaded := [] }

/-- State fixture with gemma-3-12b resident, used by several witnesses. -/
def stResident : ManagerState :=
  { slot := some { key := "gemma-3-12b", backend_used := "optimized", actual_memory_mb := 1024 },
    downloaded := ["gemma-3-12b"] }

/-- Environment fixture whose optimized backend signals incompatibility and
whose portable backend works. -/
def envFallback : Env :=
  { device := "cuda"
    fetch := fun _ => true
    attempt := fun _ b => if b = "optimized" then .incompatible else .success 512
    gen := fun _ _ _ => .ok "generated" }

/-- A successful catalog lookup returns the descriptor of the requested key. -/
lemma findDescriptor_key {cat : Catalog} {key : String} {d : ModelDescriptor}
    (h : findDescriptor cat key = some d) : d.key = key := by
  have h2 := List.find?_some h
  simpa using h2

/-- Over a catalog with pairwise distinct keys, at most one per-key status
entry can carry loaded = true, since the loaded flag tests equality with
the single current key. -/
lemma countP_loaded_le_one (st : ManagerState) :
    ∀ cat : List ModelDescriptor, (List.map ModelDescriptor.key cat).Nodup →
      List.countP (fun d => (statusEntry st d).loaded) cat ≤ 1 := by
  intro cat
  induction cat with
  | nil => intro _; simp
  | cons d rest ih =>
    intro h
    rw [List.map_cons, List.nodup_cons] at h
    rw [List.countP_cons]
    by_cases hl : (statusEntry st d).loaded = true
    · have hck : current_model st = some d.key := by
        simpa [statusEntry] using hl
      have hzero : List.countP (fun d2 => (statusEntry st d2).loaded) rest = 0 := by
        rw [List.countP_eq_zero]
        intro d2 hd2
        simp only [statusEntry, hck, decide_eq_true_eq, Option.some.injEq]
        intro hEq
        exact h.1 (hEq ▸ List.mem_map_of_mem ModelDescriptor.key hd2)
      simp [hzero, hl]
    · have hb : (statusEntry st d).loaded = false := by
        revert hl; cases (statusEntry st d).loaded <;> simp
      simpa [hb] using ih h.2

/-- The loaded-count of the status report is the count of catalog entries
whose derived status flag is loaded. -/
lemma loadedCount_eq (cat : Catalog) (env : Env) (st : ManagerState) :
    loadedCount cat env st = List.countP (fun d => (statusEntry st d).loaded) cat := by
  rw [loadedCount, get_status]
  rw [← List.countP_eq_length_filter, List.countP_map]
  rfl

/-- At most one catalog key is ever reported loaded, in any state. -/
lemma loadedCount_le_one (cat : Catalog) (env : Env) (st : ManagerState)
    (h : (catalogKeys cat).Nodup) : loadedCount cat env st ≤ 1 := by
  rw [loadedCount_eq]
  exact countP_loaded_le_one st cat h

/-- Claim C1: for every sequence of load, unload, and switch operations
starting from an empty slot, at every observable point the set of catalog
keys reported by get_status with loaded = true has cardinality 0 or 1 —
never two models are resident simultaneously. -/
theorem single_tenancy_invariant (cat : Catalog) (env : Env) (ops : List Op)
    (dl : List String) (h : (catalogKeys cat).Nodup) :
    loadedCount cat env (runOps cat env ops { slot := none, downloaded := dl }) ≤ 1 :=
  loadedCount_le_one cat env _ h

theorem single_tenancy_invariant_witness :
    (catalogKeys catW).Nodup ∧
      loadedCount catW envW
        (runOps catW envW
          [Op.load "gemma-3-12b", Op.switch "phi-4-multimodal", Op.unload,
            Op.load "phi-4-reasoning"]
          { slot := none, downloaded := [] }) ≤ 1 :=
  ⟨by decide, single_tenancy_invariant catW envW _ _ (by decide)⟩

/-- Claim C2: a generation request issued when no model is resident fails
with a typed InvalidStateError — the dispatcher rejects it and the generate
endpoint answers 400 "No model loaded" — the residency slot is untouched and
the underlying model-generation call is never invoked (the invocation
counter stays 0). -/
theorem generate_requires_resident (env : Env) (st : ManagerState) (prompt : String)
    (len : Nat) (h : st.slot = none) :
    generate_text env st prompt len = (.error (.invalidState "No model loaded"), st, 0) ∧
    generate_with_model env st prompt len =
      (.error (.httpException 400 "No model loaded"), st, 0) := by
  have hc : current_model st = none := by simp [current_model, h]
  constructor
  · simp [generate_text, h]
  · simp [generate_with_model, hc, pyTruthy]

theorem generate_requires_resident_witness :
    stEmpty.slot = none ∧
      generate_text envW stEmpty "hello" 50 =
        (.error (.invalidState "No model loaded"), stEmpty, 0) ∧
      generate_with_model envW stEmpty "hello" 50 =
        (.error (.httpException 400 "No model loaded"), stEmpty, 0) :=
  ⟨rfl, generate_requires_resident envW stEmpty "hello" 50 rfl⟩

/-- Claim C5: ensure_downloaded is idempotent — when the download record for
a key is already present, the call returns true immediately with zero
transfers and an unchanged state, and so does a second call. -/
theorem ensure_downloaded_idempotent (env : Env) (st : ManagerState) (key : String)
    (h : key ∈ st.downloaded) :
    ensure_downloaded env st key = (true, st, 0) ∧
    ensure_downloaded env (ensure_downloaded env st key).2.1 key = (true, st, 0) := by
  have h1 : ensure_downloaded env st key = (true, st, 0) := by
    simp [ensure_downloaded, h]
  refine ⟨h1, ?_⟩
  rw [h1]
  exact h1

theorem ensure_downloaded_idempotent_witness :
    "gemma-3-12b" ∈ (["gemma-3-12b"] : List String) ∧
      ensure_downloaded envW { slot := none, downloaded := ["gemma-3-12b"] } "gemma-3-12b" =
        (true, { slot := none, downloaded := ["gemma-3-12b"] }, 0) :=
  ⟨by decide,
    (ensure_downloaded_idempotent envW { slot := none, downloaded := ["gemma-3-12b"] }
      "gemma-3-12b" (by decide)).1⟩

/-- Claim C8: get_status is a pure read — it returns the state unchanged,
reports the current key, and reports per catalog key the downloaded and
loaded flags, plus the backend and memory of the resident model. -/
theorem status_pure_read (cat : Catalog) (env : Env) (st : ManagerState) :
    (get_status cat env st).2 = st ∧
    (get_status cat env st).1.current_model = current_model st ∧
    ∀ d ∈ cat, statusEntry st d ∈ (get_status cat env st).1.models ∧
      (statusEntry st d).downloaded = decide (d.key ∈ st.downloaded) ∧
      (statusEntry st d).loaded = decide (current_model st = some d.key) ∧
      ∀ lm, st.slot = some lm → lm.key = d.key →
        (statusEntry st d).backend_used = some lm.backend_used ∧
        (statusEntry st d).gpu_memory_mb = some lm.actual_memory_mb := by
  refine ⟨rfl, rfl, ?_⟩
  intro d hd
  refine ⟨List.mem_map_of_mem (statusEntry st) hd, rfl, rfl, ?_⟩
  intro lm hs hk
  constructor <;> simp [statusEntry, hs, hk]

theorem status_pure_read_witness :
    (get_status catW envW stResident).2 = stResident ∧
      (dGemma ∈ catW ∧
        (statusEntry stResident dGemma).loaded =
          decide (current_model stResident = some dGemma.key)) :=
  ⟨(status_pure_read catW envW stResident).1,
    by decide,
    ((status_pure_read catW envW stResident).2.2 dGemma (by decide)).2.2.1⟩

/-- ensure_downloaded never changes the slot. -/
lemma ensure_downloaded_slot (env : Env) (st : ManagerState) (key : String) :
    (ensure_downloaded env st key).2.1.slot = st.slot := by
  rw [ensure_downloaded]
  split
  · rfl
  · split <;> rfl

/-- A load with a known key either succeeds with the requested key in the
slot, or reports false with an empty slot. -/
lemma load_model_cases (cat : Catalog) (env : Env) (st : ManagerState) (key : String)
    (d : ModelDescriptor) (hd : findDescriptor cat key = some d) :
    ((load_model cat env st key).1 = .ok true ∧
      ∃ b m, (load_model cat env st key).2.1.slot =
        some { key := key, backend_used := b, actual_memory_mb := m }) ∨
    ((load_model cat env st key).1 = .ok false ∧
      (load_model cat env st key).2.1.slot = none) := by
  have hslot : (ensure_downloaded env { st with slot := none } key).2.1.slot = none :=
    ensure_downloaded_slot env { st with slot := none } key
  simp only [load_model, hd]
  rcases hE : ensure_downloaded env { st with slot := none } key with ⟨ok, st1, t⟩
  rw [hE] at hslot
  cases ok with
  | false => exact Or.inr ⟨rfl, hslot⟩
  | true =>
    cases htb : try_backends env key d.backend_hints with
    | ok b m => exact Or.inl ⟨rfl, b, m, rfl⟩
    | failed => exact Or.inr ⟨rfl, hslot⟩

/-- Claim C3 counterexample: the claim quantifies over every model B and
every resident model A, but for B equal to the resident key A a switch is
unload followed by a reload of A, after which A is reported loaded = true,
not loaded = false as the claim demands.  Concretely: with gemma-3-12b
resident, switch to gemma-3-12b succeeds and gemma-3-12b is still reported
loaded. -/
theorem switch_same_key_counterexample :
    current_model stResident = some dGemma.key ∧
    dGemma ∈ catW ∧
    (switch_model catW envW stResident dGemma.key).1 = .ok true ∧
    (statusEntry (switch_model catW envW stResident dGemma.key).2.1 dGemma).loaded = true := by
  exact ⟨rfl, by decide, rfl, by decide⟩

/-- Claim C3 (amended): for every catalog model B distinct from the resident
model A, switch(B) behaves as unload() followed by load(B): afterwards A is
not the current model (its loaded flag is false), and either B is resident
or the slot is empty; if the load reports failure after A was unloaded, the
slot is empty — never a silent fallback to A. -/
theorem switch_unloads_previous (cat : Catalog) (env : Env) (st : ManagerState)
    (lm : LoadedModel) (B : String) (d : ModelDescriptor)
    (hres : st.slot = some lm) (hne : lm.key ≠ B)
    (hB : findDescriptor cat B = some d) :
    switch_model cat env st B = load_model cat env (unload_current_model st).2 B ∧
    current_model (switch_model cat env st B).2.1 ≠ some lm.key ∧
    (current_model (switch_model cat env st B).2.1 = some B ∨
      (switch_model cat env st B).2.1.slot = none) ∧
    ((switch_model cat env st B).1 = .ok false →
      (switch_model cat env st B).2.1.slot = none) := by
  have hsw : switch_model cat env st B =
      load_model cat env (unload_current_model st).2 B := by
    simp [switch_model, hB]
  rcases load_model_cases cat env (unload_current_model st).2 B d hB with
    ⟨hr, b, m, hs⟩ | ⟨hr, hs⟩
  · refine ⟨hsw, ?_, ?_, ?_⟩
    · rw [hsw]
      intro hEq
      rw [current_model, hs] at hEq
      simp at hEq
      exact hne hEq.symm
    · left
      rw [hsw]
      simp [current_model, hs]
    · intro hfalse
      rw [hsw, hr] at hfalse
      simp at hfalse
  · refine ⟨hsw, ?_, Or.inr (by rw [hsw]; exact hs), fun _ => by rw [hsw]; exact hs⟩
    rw [hsw]
    simp [current_model, hs]

theorem switch_unloads_previous_witness :
    stResident.slot =
        some { key := "gemma-3-12b", backend_used := "optimized", actual_memory_mb := 1024 } ∧
      ("gemma-3-12b" : String) ≠ "phi-4-multimodal" ∧
      findDescriptor catW "phi-4-multimodal" = some dPhiMM ∧
      (current_model (switch_model catW envW stResident "phi-4-multimodal").2.1 ≠
          some "gemma-3-12b" ∧
        (current_model (switch_model catW envW stResident "phi-4-multimodal").2.1 =
            some "phi-4-multimodal" ∨
          (switch_model catW envW stResident "phi-4-multimodal").2.1.slot = none)) :=
  ⟨rfl, by decide, by decide,
    (switch_unloads_previous catW envW stResident
      { key := "gemma-3-12b", backend_used := "optimized", actual_memory_mb := 1024 }
      "phi-4-multimodal" dPhiMM rfl (by decide) (by decide)).2.1,
    (switch_unloads_previous catW envW stResident
      { key := "gemma-3-12b", backend_used := "optimized", actual_memory_mb := 1024 }
      "phi-4-multimodal" dPhiMM rfl (by decide) (by decide)).2.2.1⟩

/-- Claim C6: for a key whose backend hints are [optimized, portable], when
the optimized backend raises an incompatibility signal the manager retries
with the portable backend, the load succeeds, and the status entry for the
key reports backend_used = "portable". -/
theorem backend_fallback (cat : Catalog) (env : Env) (st : ManagerState)
    (key : String) (d : ModelDescriptor) (m : Nat)
    (hd : findDescriptor cat key = some d)
    (hh : d.backend_hints = ["optimized", "portable"])
    (h1 : env.attempt key "optimized" = .incompatible)
    (h2 : env.attempt key "portable" = .success m)
    (hdl : key ∈ st.downloaded) :
    (load_model cat env st key).1 = .ok true ∧
    (load_model cat env st key).2.1.slot =
      some { key := key, backend_used := "portable", actual_memory_mb := m } ∧
    (statusEntry (load_model cat env st key).2.1 d).backend_used = some "portable" := by
  have htb : try_backends env key d.backend_hints = .ok "portable" m := by
    rw [hh]
    simp [try_backends, h1, h2]
  have hkey := findDescriptor_key hd
  have hE : ensure_downloaded env { st with slot := none } key =
      (true, { st with slot := none }, 0) := by
    simp [ensure_downloaded, hdl]
  simp only [load_model, hd, hE, htb]
  refine ⟨by simp, by simp, by simp [statusEntry, hkey]⟩

theorem backend_fallback_witness :
    findDescriptor catW "gemma-3-12b" = some dGemma ∧
      dGemma.backend_hints = ["optimized", "portable"] ∧
      envFallback.attempt "gemma-3-12b" "optimized" = .incompatible ∧
      envFallback.attempt "gemma-3-12b" "portable" = .success 512 ∧
      (load_model catW envFallback
          { slot := none, downloaded := ["gemma-3-12b"] } "gemma-3-12b").1 = .ok true ∧
      (statusEntry (load_model catW envFallback
          { slot := none, downloaded := ["gemma-3-12b"] } "gemma-3-12b").2.1
        dGemma).backend_used = some "portable" :=
  ⟨by decide, rfl, rfl, rfl,
    (backend_fallback catW envFallback { slot := none, downloaded := ["gemma-3-12b"] }
      "gemma-3-12b" dGemma 512 (by decide) rfl rfl rfl (by decide)).1,
    (backend_fallback catW envFallback { slot := none, downloaded := ["gemma-3-12b"] }
      "gemma-3-12b" dGemma 512 (by decide) rfl rfl rfl (by decide)).2.2⟩

/-- Claim C7: a key outside the catalog is exactly the key on which the
catalog lookup reports nothing — its only error condition; load and switch
on such a key fail with InvalidStateError and perform no side effect, the
load endpoint rejects a key outside its valid list with a 400 error and no
side effect, and every catalog key is accepted by load (no error is
raised). -/
theorem unknown_key_rejected (cat : Catalog) (env : Env) (st : ManagerState)
    (key : String) :
    (findDescriptor cat key = none ↔ key ∉ catalogKeys cat) ∧
    (key ∉ catalogKeys cat →
      load_model cat env st key = (.error (.invalidState "key not found"), st, 0) ∧
      switch_model cat env st key = (.error (.invalidState "key not found"), st, 0)) ∧
    (key ∈ catalogKeys cat → ∃ r, (load_model cat env st key).1 = Except.ok r) ∧
    (key ∉ api_valid_models →
      load_model_endpoint cat env st key =
        (.error (.httpException 400 "Invalid model type"), st)) := by
  have h1 : findDescriptor cat key = none ↔ key ∉ catalogKeys cat := by
    rw [findDescriptor, List.find?_eq_none]
    simp only [catalogKeys, List.mem_map, beq_iff_eq]
    constructor
    · rintro h ⟨d, hd, hkey⟩
      exact h d hd hkey
    · intro h d hd hkey
      exact h ⟨d, hd, hkey⟩
  refine ⟨h1, ?_, ?_, ?_⟩
  · intro hnot
    have hf : findDescriptor cat key = none := h1.mpr hnot
    constructor <;> simp [load_model, switch_model, hf]
  · intro hmem
    have hf : (findDescriptor cat key).isSome := by
      rw [findDescriptor, List.find?_isSome]
      simp only [catalogKeys, List.mem_map] at hmem
      obtain ⟨d, hd, hkey⟩ := hmem
      exact ⟨d, hd, by simp [hkey]⟩
    obtain ⟨d, hd⟩ := Option.isSome_iff_exists.mp hf
    rcases load_model_cases cat env st key d hd with ⟨hr, _⟩ | ⟨hr, _⟩
    · exact ⟨true, hr⟩
    · exact ⟨false, hr⟩
  · intro hnot
    simp [load_model_endpoint, hnot]

theorem unknown_key_rejected_witness :
    ("no-such-model" ∉ catalogKeys catW ∧
      load_model catW envW stEmpty "no-such-model" =
        (.error (.invalidState "key not found"), stEmpty, 0)) ∧
    ("gemma-3-12b" ∈ catalogKeys catW ∧
      ∃ r, (load_model catW envW stEmpty "gemma-3-12b").1 = Except.ok r) ∧
    ("no-such-model" ∉ api_valid_models ∧
      load_model_endpoint catW envW stEmpty "no-such-model" =
        (.error (.httpException 400 "Invalid model type"), stEmpty)) :=
  ⟨⟨by decide,
      ((unknown_key_rejected catW envW stEmpty "no-such-model").2.1 (by decide)).1⟩,
    ⟨by decide,
      (unknown_key_rejected catW envW stEmpty "gemma-3-12b").2.2.1 (by decide)⟩,
    ⟨by decide,
      (unknown_key_rejected catW envW stEmpty "no-such-model").2.2.2 (by decide)⟩⟩

/-- Claim C9: load on an empty slot calls ensure_downloaded internally — a
load for a key whose weights are not yet recorded as present triggers
exactly one download transfer, records the key as downloaded, and does not
fail on missing files (it returns a boolean, not an error). -/
theorem load_triggers_download (cat : Catalog) (env : Env) (st : ManagerState)
    (key : String) (d : ModelDescriptor)
    (hslot : st.slot = none)
    (hd : findDescriptor cat key = some d)
    (hnot : key ∉ st.downloaded)
    (hfetch : env.fetch key = true) :
    key ∈ (load_model cat env st key).2.1.downloaded ∧
    (load_model cat env st key).2.2 = 1 ∧
    ∃ b, (load_model cat env st key).1 = Except.ok b := by
  have hE : ensure_downloaded env { st with slot := none } key =
      (true, { slot := none, downloaded := key :: st.downloaded }, 1) := by
    simp [ensure_downloaded, hnot, hfetch]
  simp only [load_model, hd, hE]
  cases htb : try_backends env key d.backend_hints with
  | ok b m => exact ⟨List.mem_cons_self key st.downloaded, rfl, true, rfl⟩
  | failed => exact ⟨List.mem_cons_self key st.downloaded, rfl, false, rfl⟩

theorem load_triggers_download_witness :
    stEmpty.slot = none ∧
      findDescriptor catW "phi-4-reasoning" = some dPhiR ∧
      "phi-4-reasoning" ∉ stEmpty.downloaded ∧
      envW.fetch "phi-4-reasoning" = true ∧
      ("phi-4-reasoning" ∈ (load_model catW envW stEmpty "phi-4-reasoning").2.1.downloaded ∧
        (load_model catW envW stEmpty "phi-4-reasoning").2.2 = 1) :=
  ⟨rfl, by decide, by decide, rfl,
    (load_triggers_download catW envW stEmpty "phi-4-reasoning" dPhiR rfl (by decide)
      (by decide) rfl).1,
    (load_triggers_download catW envW stEmpty "phi-4-reasoning" dPhiR rfl (by decide)
      (by decide) rfl).2.1⟩

namespace FAISSManager

/-- The result-processing loop never grows the result list beyond k once the
accumulator is below k: appending checks the break bound after every
append. -/
lemma processResults_length (st : FAISSState) (filt : Option (List (String × String)))
    (k : Nat) :
    ∀ (raw : List (Int × Int)) (acc : List SearchResult),
      acc.length < k → (processResults st filt k raw acc).length ≤ k := by
  intro raw
  induction raw with
  | nil =>
    intro acc h
    simpa [processResults] using Nat.le_of_lt h
  | cons p rest ih =>
    intro acc h
    obtain ⟨score, idx⟩ := p
    rw [processResults]
    split
    · exact ih acc h
    · cases hm : lookupMeta st idx with
      | none => exact ih acc h
      | some m =>
        simp only
        split
        · split
          · simpa using h
          · refine ih _ ?_
            omega
        · exact ih acc h

/-- Every element the result-processing loop adds beyond the accumulator
comes from a metadata entry of the index, carried whole into the result. -/
lemma processResults_mem (st : FAISSState) (filt : Option (List (String × String)))
    (k : Nat) :
    ∀ (raw : List (Int × Int)) (acc : List SearchResult) (r : SearchResult),
      r ∈ processResults st filt k raw acc →
      r ∈ acc ∨ ∃ idx m, lookupMeta st idx = some m ∧ r = mkResult r.score m := by
  intro raw
  induction raw with
  | nil =>
    intro acc r h
    rw [processResults] at h
    exact Or.inl h
  | cons p rest ih =>
    intro acc r h
    obtain ⟨score, idx⟩ := p
    rw [processResults] at h
    split at h
    · exact ih acc r h
    · split at h
      · exact ih acc r h
      · rename_i m hm
        split at h
        · split at h
          · rcases List.mem_append.mp h with h2 | h2
            · exact Or.inl h2
            · right
              have hr : r = mkResult score m := by simpa using h2
              exact ⟨idx, m, hm, by rw [hr]; rfl⟩
          · rcases ih _ r h with h2 | h2
            · rcases List.mem_append.mp h2 with h3 | h3
              · exact Or.inl h3
              · right
                have hr : r = mkResult score m := by simpa using h3
                exact ⟨idx, m, hm, by rw [hr]; rfl⟩
            · exact Or.inr h2
        · exact ih acc r h

/-- Claim C10: for every query and every k, the vector-similarity search
returns at most k result entries, each carrying a score and a metadata entry
stored in the index, and a query that is empty or whitespace-only returns
the empty list regardless of the index contents.  The hypothesis reflects
that the raw faiss call search(embedding, k * 2) returns at most 2 * k
candidate rows. -/
theorem search_bounded (st : FAISSState) (query : String) (k : Nat)
    (filt : Option (List (String × String))) (raw : List (Int × Int))
    (hraw : raw.length ≤ 2 * k) :
    (search st query k filt raw).length ≤ k ∧
    (∀ r ∈ search st query k filt raw,
      ∃ idx m, lookupMeta st idx = some m ∧ r = mkResult r.score m) ∧
    ((pyStrip query).isEmpty = true →
      ∀ raw2 : List (Int × Int), search st query k filt raw2 = []) := by
  refine ⟨?_, ?_, ?_⟩
  · rw [search]
    split
    · simp
    · cases k with
      | zero =>
        have hz : raw = [] := by
          have hl : raw.length = 0 := Nat.le_zero.mp (by simpa using hraw)
          exact List.length_eq_zero.mp hl
        subst hz
        rw [processResults]
        simp
      | succ n =>
        exact processResults_length st filt (n + 1) raw [] (by simp)
  · intro r hr
    rw [search] at hr
    split at hr
    · simp at hr
    · rcases processResults_mem st filt k raw [] r hr with h | h
      · simp at h
      · exact h
  · intro hq raw2
    rw [search]
    simp [hq]

theorem search_bounded_witness :
    rawFixture.length ≤ 2 * 2 ∧
      ((search stFixture "worry child" 2 none rawFixture).length ≤ 2 ∧
        (∀ r ∈ search stFixture "worry child" 2 none rawFixture,
          ∃ idx m, lookupMeta stFixture idx = some m ∧ r = mkResult r.score m) ∧
        ((pyStrip "worry child").isEmpty = true →
          ∀ raw2 : List (Int × Int), search stFixture "worry child" 2 none raw2 = [])) :=
  ⟨by decide, search_bounded stFixture "worry child" 2 none rawFixture (by decide)⟩

end FAISSManager

end TranscribeSong
